import Mathlib

/-!
# Verification of the zerto-rpo client

A shallow embedding of the two Go source variants of this repository
(`src/main.go` and `src/unnamed/part_000`): a client that reads a JSON
config file, logs in to a Zerto REST endpoint with HTTP Basic Auth,
fetches the list of VPG records with the session token, and prints the
average of the `ActualRPO` field.

Modelling conventions:

* Go `int` is 64-bit: the wrapping addition of the accumulation loop
  is modelled with `wrap64` (two-complement reduction into the int64
  range), and the Go truncating integer division `/` is `Int.tdiv`
  (the divisor is the positive record count, so division never
  overflows).  The JSON decoder rejects numbers outside the 64-bit
  range, as the Go `encoding/json` does for an `int` target.
* An HTTP response body (a byte string in Go) is abstracted to its
  parsed-JSON view: `Except String (Option Json)` where `.error e`
  models a failure of `io.ReadAll`, `.ok none` a body that is not valid
  JSON, and `.ok (some j)` a body whose JSON value is `j`.
* The network is a function from requests to responses or transport
  errors (`Client`); the functions under test are parameterised by it.
* the Go `(value, error)` returns are modelled as `Except` when the value
  is meaningless on error, and as a pair with an `Option String` error
  component when the code returns a concrete value (such as `0`)
  alongside the error.
* Header keys are used verbatim; the Go MIME canonicalisation is the
  identity on the keys this program uses (`X-Zerto-Session`).
-/

namespace ZertoRPO

/-- JSON values, the parsed view of request/response bodies and of the
config file.  Numbers are restricted to integers: every number this
program decodes goes into a Go `int` field, where a fractional part is
a decode error in Go, and such bodies are covered by the `none` case of
an unparseable/undecodable body. -/
inductive Json where
  | null
  | bool (b : Bool)
  | num (n : Int)
  | str (s : String)
  | arr (elems : List Json)
  | obj (fields : List (String × Json))

/-- `VPG` struct of both sources: the one decoded field `ActualRPO`. -/
structure VPG where
  ActualRPO : Int
deriving DecidableEq

/-- `Config` struct of both sources: the ZVM login credentials. -/
structure Config where
  username : String
  password : String
deriving DecidableEq

/-- Smallest value of the Go 64-bit `int`. -/
def int64Min : Int := -(2 ^ 63)

/-- Largest value of the Go 64-bit `int`. -/
def int64Max : Int := 2 ^ 63 - 1

/-- Key matching of the Go `encoding/json` for a struct field:
successive matching keys overwrite, so the last match wins.  Keys are
matched exactly; the Go additional case-insensitive fallback for
non-exact keys is not modelled. -/
def lookupJsonField (fields : List (String × Json)) (key : String) : Option Json :=
  fields.foldl (fun acc kv => if kv.1 = key then some kv.2 else acc) none

/-- `json.Unmarshal` of one JSON value into a `VPG` struct: an object
populates `ActualRPO` from a matching integral number key (missing key
or JSON `null` leave the zero value `0`, a non-number is a type error,
a number outside the `int` range is an error); a JSON `null` leaves the
zero-valued struct; anything else is a type error. -/
def unmarshalVPG : Json → Except String VPG
  | .null => .ok ⟨0⟩
  | .obj fields =>
    match lookupJsonField fields "ActualRPO" with
    | none => .ok ⟨0⟩
    | some .null => .ok ⟨0⟩
    | some (.num n) =>
      if int64Min ≤ n ∧ n ≤ int64Max then .ok ⟨n⟩
      else .error "cannot unmarshal number into field ActualRPO of type int"
    | some _ => .error "cannot unmarshal value into field ActualRPO of type int"
  | _ => .error "cannot unmarshal value into value of type main.VPG"

/-- `json.Unmarshal` of a response body into `[]VPG`: an unreadable or
non-JSON body is an error, JSON `null` yields the nil slice, an array
decodes element-wise (failing on the first bad element), and any other
JSON value is a type error. -/
def unmarshalVPGList : Option Json → Except String (List VPG)
  | none => .error "invalid character in body"
  | some .null => .ok []
  | some (.arr elems) => elems.mapM unmarshalVPG
  | some _ => .error "cannot unmarshal value into value of type []main.VPG"

/-- `json.Unmarshal` of one JSON value into a `string` struct field:
missing key or `null` leave `""`, a string is taken verbatim, anything
else is a type error. -/
def unmarshalStringField : Option Json → Except String String
  | none => .ok ""
  | some .null => .ok ""
  | some (.str s) => .ok s
  | some _ => .error "cannot unmarshal value into field of type string"

/-- `json.Unmarshal` of the config file contents into `Config`. -/
def unmarshalConfig : Option Json → Except String Config
  | none => .error "invalid character in config"
  | some .null => .ok ⟨"", ""⟩
  | some (.obj fields) => do
    let u ← unmarshalStringField (lookupJsonField fields "username")
    let p ← unmarshalStringField (lookupJsonField fields "password")
    return ⟨u, p⟩
  | some _ => .error "cannot unmarshal value into value of type main.Config"

/-- `readConfig` of both sources.  The file system is abstracted to the
outcome of `os.ReadFile`: `none` is a read failure (e.g. a missing
file), `some content` a successful read with `content` the parsed-JSON
view of the bytes (`none` when they are not valid JSON). -/
def readConfig (file : Option (Option Json)) : Except String Config :=
  match file with
  | none => .error "open config file: no such file or directory"
  | some content => unmarshalConfig content

/-- An outgoing HTTP request as this program builds it: method, URL,
explicit headers, and the Basic-Auth credentials when set. -/
structure HttpRequest where
  method : String
  url : String
  headers : List (String × String)
  basicAuth : Option (String × String)
deriving DecidableEq

/-- An HTTP response as this program consumes it: status code, headers,
and the body in its parsed-JSON abstraction. -/
structure HttpResponse where
  statusCode : Nat
  headers : List (String × String)
  body : Except String (Option Json)

/-- `http.Header.Get`: the first value stored for the key, `""` when
the key is absent. -/
def headerGet (headers : List (String × String)) (key : String) : String :=
  match headers.find? (fun kv => kv.1 == key) with
  | some kv => kv.2
  | none => ""

/-- `http.Header.Set`: replaces any existing values for the key with
the single given value. -/
def headerSet (headers : List (String × String)) (key value : String) :
    List (String × String) :=
  (key, value) :: headers.filter (fun kv => kv.1 != key)

/-- The network: `client.Do`, a function from a request to a transport
error or a response. -/
abbrev Client : Type := HttpRequest → Except String HttpResponse

/-- The login request built by `loginToZerto`:
`POST https://serverIP:9669/v1/session/add` with Basic Auth. -/
def loginRequest (serverIP username password : String) : HttpRequest :=
  { method := "POST"
    url := "https://" ++ serverIP ++ ":9669/v1/session/add"
    headers := []
    basicAuth := some (username, password) }

/-- `loginToZerto` of both sources, returning the Go `(string, error)`
pair: the session token and `none`, or `""` and the error. -/
def loginToZerto (client : Client) (serverIP username password : String) :
    String × Option String :=
  match client (loginRequest serverIP username password) with
  | .error e => ("", some e)
  | .ok resp =>
    if resp.statusCode ≠ 200 then
      ("", some ("failed to login, status code: " ++ toString resp.statusCode))
    else
      let sessionToken := headerGet resp.headers "X-Zerto-Session"
      if sessionToken = "" then ("", some "session token not found in headers")
      else (sessionToken, none)

/-- The query request built by `queryVPGs`:
`GET https://serverIP:9669/v1/vpgs` with the `X-Zerto-Session` header
set to the session token. -/
def vpgsRequest (serverIP sessionToken : String) : HttpRequest :=
  { method := "GET"
    url := "https://" ++ serverIP ++ ":9669/v1/vpgs"
    headers := headerSet [] "X-Zerto-Session" sessionToken
    basicAuth := none }

/-- Two-complement wrap of an unbounded integer into the 64-bit `int`
range: the effect of overflowing Go signed addition. -/
def wrap64 (n : Int) : Int := (n + 2 ^ 63) % 2 ^ 64 - 2 ^ 63

/-- The accumulation loop over the decoded VPGs:
`totalRPO := 0; for _, vpg := range vpgs { totalRPO += vpg.ActualRPO }`,
with `+=` the wrapping 64-bit `int` addition. -/
def totalRPO (vpgs : List VPG) : Int :=
  vpgs.foldl (fun acc vpg => wrap64 (acc + vpg.ActualRPO)) 0

/-- What the `src/main.go` variant of `queryVPGs` prints on its
success paths: the bare average (`fmt.Printf`) or the placeholder
line `No VPGs found.` (`fmt.Println`). -/
inductive Output where
  | average (n : Int)
  | noVPGs
deriving DecidableEq

/-- `queryVPGs` of `src/main.go`: sends the token-authenticated GET,
decodes the body into `[]VPG`, and on success prints the truncating
average when the list is non-empty and the placeholder otherwise.
`.ok out` is a nil-error return after printing `out`; `.error e` is a
non-nil error return (nothing printed). -/
def queryVPGs (client : Client) (serverIP sessionToken : String) :
    Except String Output :=
  match client (vpgsRequest serverIP sessionToken) with
  | .error e => .error e
  | .ok resp =>
    match resp.body with
    | .error e => .error e
    | .ok mj =>
      match unmarshalVPGList mj with
      | .error e => .error ("error unmarshalling JSON: " ++ e)
      | .ok vpgs =>
        if vpgs.length > 0 then
          .ok (.average (Int.tdiv (totalRPO vpgs) vpgs.length))
        else
          .ok .noVPGs

/-- `queryVPGs` of `src/unnamed/part_000`, returning the Go
`(int, error)` pair: `(0, err)` on failure, `(0, nil)` on the empty
list, and `(total/len, nil)` otherwise. -/
def queryVPGs2 (client : Client) (serverIP sessionToken : String) :
    Int × Option String :=
  match client (vpgsRequest serverIP sessionToken) with
  | .error e => (0, some e)
  | .ok resp =>
    match resp.body with
    | .error e => (0, some e)
    | .ok mj =>
      match unmarshalVPGList mj with
      | .error e => (0, some ("error unmarshalling JSON: " ++ e))
      | .ok vpgs =>
        if vpgs.length = 0 then (0, none)
        else (Int.tdiv (totalRPO vpgs) vpgs.length, none)

/-- The terminal outcome of `main` in `src/main.go`: each `log.Fatalf`
site, or success with the printed output. -/
inductive MainResult where
  | configError (e : String)
  | authError (e : String)
  | queryError (e : String)
  | success (printed : Output)
deriving DecidableEq

/-- `log.Fatalf` exits with status 1; only the success path exits 0. -/
def exitsNonzero : MainResult → Bool
  | .success _ => false
  | _ => true

/-- `main` of `src/main.go` after flag parsing, parameterised by the
result of `readConfig` and the HTTP client, returning its terminal
outcome together with the list of HTTP requests it issued. -/
def runMain (configResult : Except String Config) (client : Client)
    (serverIP : String) : MainResult × List HttpRequest :=
  match configResult with
  | .error e => (.configError e, [])
  | .ok config =>
    match loginToZerto client serverIP config.username config.password with
    | (_, some e) =>
      (.authError e, [loginRequest serverIP config.username config.password])
    | (sessionToken, none) =>
      match queryVPGs client serverIP sessionToken with
      | .error e =>
        (.queryError e,
         [loginRequest serverIP config.username config.password,
          vpgsRequest serverIP sessionToken])
      | .ok out =>
        (.success out,
         [loginRequest serverIP config.username config.password,
          vpgsRequest serverIP sessionToken])

/-- The text `queryVPGs` of `src/main.go` writes to standard output on
each success path: `fmt.Printf` of the bare number, or `fmt.Println`
of the placeholder. -/
def renderOutput : Output → String
  | .average n => toString n
  | .noVPGs => "No VPGs found.\n"

/-- The text `main` of `src/unnamed/part_000` writes on success:
`fmt.Println(averageRPO)`. -/
def renderAverageLine (n : Int) : String := toString n ++ "\n"

/-- Whether a decoded body is a JSON array. -/
def isJsonArray : Option Json → Bool
  | some (.arr _) => true
  | _ => false


/-! ## Helper lemmas -/

/-- Wrapping after a wrapped partial result is the same as wrapping
the exact sum: `wrap64` respects congruence modulo `2 ^ 64`. -/
theorem wrap64_add_left (a b : Int) : wrap64 (wrap64 a + b) = wrap64 (a + b) := by
  unfold wrap64
  omega

/-- Values already inside the 64-bit `int` range are fixed by the
wrap. -/
theorem wrap64_of_range (a : Int) (h1 : int64Min ≤ a) (h2 : a ≤ int64Max) :
    wrap64 a = a := by
  unfold wrap64 int64Min int64Max at *
  omega

/-- The wrap fixes zero. -/
theorem wrap64_zero : wrap64 0 = 0 := by decide

/-- The accumulation loop started at a wrapped value computes the wrap
of the exact running total. -/
theorem totalRPO_wrap_aux (a : Int) (l : List VPG) :
    l.foldl (fun acc vpg => wrap64 (acc + vpg.ActualRPO)) (wrap64 a)
      = wrap64 (a + (l.map (fun v => v.ActualRPO)).sum) := by
  induction l generalizing a with
  | nil => simp
  | cons hd tl ih =>
    simp only [List.foldl_cons, List.map_cons, List.sum_cons]
    rw [wrap64_add_left, ih (a + hd.ActualRPO), add_assoc]

/-- The `totalRPO` loop computes the 64-bit wrap of the sum of the
`ActualRPO` fields. -/
theorem totalRPO_eq_wrap64_sum (vpgs : List VPG) :
    totalRPO vpgs = wrap64 ((vpgs.map (fun v => v.ActualRPO)).sum) := by
  have h := totalRPO_wrap_aux 0 vpgs
  rw [wrap64_zero] at h
  simpa [totalRPO] using h

/-- On a response whose body decodes to a non-empty record list, the
`src/main.go` variant of `queryVPGs` prints the truncating quotient of
the wrapped field sum by the record count and returns without error. -/
theorem queryVPGs_decode_pos
    (client : Client) (serverIP sessionToken : String)
    (resp : HttpResponse) (mj : Option Json) (vpgs : List VPG)
    (hresp : client (vpgsRequest serverIP sessionToken) = .ok resp)
    (hbody : resp.body = .ok mj)
    (hdec : unmarshalVPGList mj = .ok vpgs)
    (hpos : 0 < vpgs.length) :
    queryVPGs client serverIP sessionToken =
      .ok (.average
        (Int.tdiv (wrap64 ((vpgs.map (fun v => v.ActualRPO)).sum)) vpgs.length)) := by
  simp [queryVPGs, hresp, hbody, hdec, hpos, totalRPO_eq_wrap64_sum]

/-- On a response whose body decodes to a non-empty record list, the
`src/unnamed/part_000` variant of `queryVPGs` returns the truncating
quotient of the wrapped field sum by the record count with a nil
error. -/
theorem queryVPGs2_decode_pos
    (client : Client) (serverIP sessionToken : String)
    (resp : HttpResponse) (mj : Option Json) (vpgs : List VPG)
    (hresp : client (vpgsRequest serverIP sessionToken) = .ok resp)
    (hbody : resp.body = .ok mj)
    (hdec : unmarshalVPGList mj = .ok vpgs)
    (hpos : 0 < vpgs.length) :
    queryVPGs2 client serverIP sessionToken =
      (Int.tdiv (wrap64 ((vpgs.map (fun v => v.ActualRPO)).sum)) vpgs.length, none) := by
  have hne : vpgs.length ≠ 0 := Nat.pos_iff_ne_zero.mp hpos
  simp [queryVPGs2, hresp, hbody, hdec, hne, totalRPO_eq_wrap64_sum]

/-! ## Claims -/

/-- Claim C1, counterexample: a body of two records with `ActualRPO`
equal to `2 ^ 62` decodes in both Go and the model, but the Go loop
overflows — `queryVPGs` prints `-2 ^ 62`, which is not the sum of the
`ActualRPO` values divided by the record count (`2 ^ 62`). -/
theorem overflow_mean_counterexample :
    queryVPGs
      (fun _ => .ok ⟨200, [],
        .ok (some (.arr [.obj [("ActualRPO", .num 4611686018427387904)],
                         .obj [("ActualRPO", .num 4611686018427387904)]]))⟩)
      "zvm" "tok" = .ok (.average (-4611686018427387904)) ∧
    (-4611686018427387904 : Int) ≠
      Int.tdiv (4611686018427387904 + 4611686018427387904) 2 :=
  ⟨rfl, by decide⟩

/-- Claim C1, amended: for every response body that decodes to a
non-empty list of records, `queryVPGs` computes and outputs the
quotient (the Go integer division `Int.tdiv`) of the 64-bit wrapping
sum of the `ActualRPO` values by the number of records, and returns
without error; whenever the exact sum lies within the `int` range this
is the sum of all `ActualRPO` values divided by the number of
records. -/
theorem queryVPGs_outputs_mean
    (client : Client) (serverIP sessionToken : String)
    (resp : HttpResponse) (mj : Option Json) (vpgs : List VPG)
    (hresp : client (vpgsRequest serverIP sessionToken) = .ok resp)
    (hbody : resp.body = .ok mj)
    (hdec : unmarshalVPGList mj = .ok vpgs)
    (hne : vpgs ≠ []) :
    queryVPGs client serverIP sessionToken =
      .ok (.average
        (Int.tdiv (wrap64 ((vpgs.map (fun v => v.ActualRPO)).sum)) vpgs.length)) ∧
    (int64Min ≤ (vpgs.map (fun v => v.ActualRPO)).sum →
      (vpgs.map (fun v => v.ActualRPO)).sum ≤ int64Max →
      queryVPGs client serverIP sessionToken =
        .ok (.average (Int.tdiv ((vpgs.map (fun v => v.ActualRPO)).sum) vpgs.length))) := by
  have h := queryVPGs_decode_pos client serverIP sessionToken resp mj vpgs hresp hbody hdec
    (List.length_pos.mpr hne)
  refine ⟨h, fun h1 h2 => ?_⟩
  rwa [wrap64_of_range _ h1 h2] at h

/-- Claim C1, witness: on a body decoding to records with `ActualRPO`
5 and 15, whose exact sum 20 is inside the `int` range, `queryVPGs`
outputs the mean 10. -/
theorem queryVPGs_outputs_mean_witness :
    queryVPGs
      (fun _ => .ok ⟨200, [],
        .ok (some (.arr [.obj [("ActualRPO", .num 5)], .obj [("ActualRPO", .num 15)]]))⟩)
      "zvm" "tok" = .ok (.average 10) := by
  have h := queryVPGs_outputs_mean
    (fun _ => .ok ⟨200, [],
      .ok (some (.arr [.obj [("ActualRPO", .num 5)], .obj [("ActualRPO", .num 15)]]))⟩)
    "zvm" "tok"
    ⟨200, [], .ok (some (.arr [.obj [("ActualRPO", .num 5)], .obj [("ActualRPO", .num 15)]]))⟩
    (some (.arr [.obj [("ActualRPO", .num 5)], .obj [("ActualRPO", .num 15)]]))
    [⟨5⟩, ⟨15⟩] rfl rfl rfl (by decide)
  exact h.2 (by decide) (by decide)

/-- Claim C2: if the decoded record list is empty, the `src/main.go`
`queryVPGs` prints the placeholder output and returns a nil error, and
the `src/unnamed/part_000` variant returns the zero value with a nil
error; both embedded functions are total, so no division by zero or
crash occurs on the empty list. -/
theorem queryVPGs_empty_neutral
    (client : Client) (serverIP sessionToken : String)
    (resp : HttpResponse) (mj : Option Json)
    (hresp : client (vpgsRequest serverIP sessionToken) = .ok resp)
    (hbody : resp.body = .ok mj)
    (hdec : unmarshalVPGList mj = .ok []) :
    queryVPGs client serverIP sessionToken = .ok .noVPGs ∧
    queryVPGs2 client serverIP sessionToken = (0, none) := by
  constructor
  · simp [queryVPGs, hresp, hbody, hdec]
  · simp [queryVPGs2, hresp, hbody, hdec]

/-- Claim C2, witness: on the body `[]` both variants yield their
neutral result without error. -/
theorem queryVPGs_empty_neutral_witness :
    queryVPGs (fun _ => .ok ⟨200, [], .ok (some (.arr []))⟩) "zvm" "tok" = .ok .noVPGs ∧
    queryVPGs2 (fun _ => .ok ⟨200, [], .ok (some (.arr []))⟩) "zvm" "tok" = (0, none) :=
  queryVPGs_empty_neutral (fun _ => .ok ⟨200, [], .ok (some (.arr []))⟩) "zvm" "tok"
    ⟨200, [], .ok (some (.arr []))⟩ (some (.arr [])) rfl rfl rfl

/-- Claim C3: if the login POST returns any HTTP status other than
200, `loginToZerto` returns the empty token together with an error,
and `main` terminates in the auth-failure outcome having issued only
the login request — `queryVPGs` is never invoked. -/
theorem login_non200_aborts
    (client : Client) (serverIP username password : String)
    (resp : HttpResponse)
    (hresp : client (loginRequest serverIP username password) = .ok resp)
    (hstatus : resp.statusCode ≠ 200) :
    loginToZerto client serverIP username password =
      ("", some ("failed to login, status code: " ++ toString resp.statusCode)) ∧
    runMain (.ok ⟨username, password⟩) client serverIP =
      (.authError ("failed to login, status code: " ++ toString resp.statusCode),
       [loginRequest serverIP username password]) := by
  have h1 : loginToZerto client serverIP username password =
      ("", some ("failed to login, status code: " ++ toString resp.statusCode)) := by
    simp [loginToZerto, hresp, hstatus]
  exact ⟨h1, by simp [runMain, h1]⟩

/-- Claim C3, witness: a 403 login response aborts the run after the
single login request. -/
theorem login_non200_aborts_witness :
    loginToZerto (fun _ => .ok ⟨403, [], .ok none⟩) "zvm" "u" "p" =
      ("", some "failed to login, status code: 403") ∧
    runMain (.ok ⟨"u", "p"⟩) (fun _ => .ok ⟨403, [], .ok none⟩) "zvm" =
      (.authError "failed to login, status code: 403", [loginRequest "zvm" "u" "p"]) := by
  have h := login_non200_aborts (fun _ => .ok ⟨403, [], .ok none⟩) "zvm" "u" "p"
    ⟨403, [], .ok none⟩ rfl (by decide)
  exact h

/-- Claim C4: if the login POST returns status 200 but the
`X-Zerto-Session` response header is absent or empty, `loginToZerto`
returns the empty token and an error rather than a token. -/
theorem login_missing_token_errors
    (client : Client) (serverIP username password : String)
    (resp : HttpResponse)
    (hresp : client (loginRequest serverIP username password) = .ok resp)
    (hstatus : resp.statusCode = 200)
    (htok : resp.headers.find? (fun kv => kv.1 == "X-Zerto-Session") = none ∨
            headerGet resp.headers "X-Zerto-Session" = "") :
    loginToZerto client serverIP username password =
      ("", some "session token not found in headers") := by
  have hget : headerGet resp.headers "X-Zerto-Session" = "" := by
    rcases htok with h | h
    · simp [headerGet, h]
    · exact h
  simp [loginToZerto, hresp, hstatus, hget]

/-- Claim C4, witness: a 200 login response with no headers yields the
missing-token error. -/
theorem login_missing_token_errors_witness :
    loginToZerto (fun _ => .ok ⟨200, [], .ok none⟩) "zvm" "u" "p" =
      ("", some "session token not found in headers") := by
  have h := login_missing_token_errors (fun _ => .ok ⟨200, [], .ok none⟩) "zvm" "u" "p"
    ⟨200, [], .ok none⟩ rfl rfl (Or.inl rfl)
  exact h

/-- Claim C5: `readConfig` returns an error exactly when the config
file is missing (the read fails) or its contents do not unmarshal into
the `Config` shape; on any such error `main` terminates in the
config-failure outcome, which exits with a nonzero status, before any
HTTP request is issued. -/
theorem readConfig_error_characterization
    (file : Option (Option Json)) (client : Client) (serverIP : String) :
    ((∃ e, readConfig file = .error e) ↔
      file = none ∨ ∃ content, file = some content ∧ ∃ e, unmarshalConfig content = .error e) ∧
    (∀ e, readConfig file = .error e →
      runMain (readConfig file) client serverIP = (.configError e, []) ∧
      exitsNonzero (runMain (readConfig file) client serverIP).1 = true) := by
  constructor
  · cases file with
    | none => simp [readConfig]
    | some content => simp [readConfig]
  · intro e he
    rw [he]
    exact ⟨by simp [runMain], by simp [runMain, exitsNonzero]⟩

/-- Claim C5, witness: a missing config file makes the run end in the
config-failure outcome with a nonzero exit and no requests issued. -/
theorem readConfig_error_characterization_witness :
    runMain (readConfig none) (fun _ => .error "down") "zvm" =
      (.configError "open config file: no such file or directory", []) ∧
    exitsNonzero (runMain (readConfig none) (fun _ => .error "down") "zvm").1 = true := by
  have h := readConfig_error_characterization none (fun _ => .error "down") "zvm"
  exact h.2 "open config file: no such file or directory" rfl

/-- Claim C6: for the record list with `ActualRPO` values 5 and 15,
the computed average is exactly 10, in both source variants. -/
theorem average_of_5_and_15_is_10 :
    queryVPGs
      (fun _ => .ok ⟨200, [],
        .ok (some (.arr [.obj [("ActualRPO", .num 5)], .obj [("ActualRPO", .num 15)]]))⟩)
      "zvm" "token" = .ok (.average 10) ∧
    queryVPGs2
      (fun _ => .ok ⟨200, [],
        .ok (some (.arr [.obj [("ActualRPO", .num 5)], .obj [("ActualRPO", .num 15)]]))⟩)
      "zvm" "token" = (10, none) :=
  ⟨rfl, rfl⟩

/-- Claim C7: whenever `loginToZerto` succeeds with a session token,
the subsequent `GET /v1/vpgs` request carries exactly that string in
its `X-Zerto-Session` header, and `main` issues exactly the login
request followed by that query request. -/
theorem session_token_propagated
    (client : Client) (serverIP username password tok : String)
    (hlogin : loginToZerto client serverIP username password = (tok, none)) :
    headerGet (vpgsRequest serverIP tok).headers "X-Zerto-Session" = tok ∧
    (runMain (.ok ⟨username, password⟩) client serverIP).2 =
      [loginRequest serverIP username password, vpgsRequest serverIP tok] := by
  refine ⟨rfl, ?_⟩
  cases hq : queryVPGs client serverIP tok <;> simp [runMain, hlogin, hq]

/-- Claim C7, witness: a login yielding the token `abc` leads to a
query request whose session header is `abc`. -/
theorem session_token_propagated_witness :
    headerGet (vpgsRequest "zvm" "abc").headers "X-Zerto-Session" = "abc" ∧
    (runMain (.ok ⟨"u", "p"⟩)
      (fun _ => .ok ⟨200, [("X-Zerto-Session", "abc")], .ok (some .null)⟩) "zvm").2 =
      [loginRequest "zvm" "u" "p", vpgsRequest "zvm" "abc"] := by
  have h := session_token_propagated
    (fun _ => .ok ⟨200, [("X-Zerto-Session", "abc")], .ok (some .null)⟩)
    "zvm" "u" "p" "abc" rfl
  exact h

/-- Claim C8, counterexample: on two records with `ActualRPO` equal to
the largest `int` value, the Go loop wraps and `queryVPGs` prints
`-1`, not the truncated quotient of the exact sum by the count. -/
theorem overflow_quotient_counterexample :
    queryVPGs
      (fun _ => .ok ⟨200, [],
        .ok (some (.arr [.obj [("ActualRPO", .num 9223372036854775807)],
                         .obj [("ActualRPO", .num 9223372036854775807)]]))⟩)
      "zvm" "tok" = .ok (.average (-1)) ∧
    (-1 : Int) ≠ Int.tdiv (9223372036854775807 + 9223372036854775807) 2 :=
  ⟨rfl, by decide⟩

/-- Claim C8, amended: for every non-empty record list the printed
average is the Go truncated (toward zero) integer quotient of the
64-bit wrapping field sum by the record count — the quotient of the
exact sum whenever that sum fits in `int` — and not the exact rational
mean: on records 5 and 10 the output is 7, which differs from 7.5. -/
theorem average_is_truncated_quotient
    (client : Client) (serverIP sessionToken : String)
    (resp : HttpResponse) (mj : Option Json) (vpgs : List VPG)
    (hresp : client (vpgsRequest serverIP sessionToken) = .ok resp)
    (hbody : resp.body = .ok mj)
    (hdec : unmarshalVPGList mj = .ok vpgs)
    (hne : vpgs ≠ []) :
    queryVPGs client serverIP sessionToken =
      .ok (.average
        (Int.tdiv (wrap64 ((vpgs.map (fun v => v.ActualRPO)).sum)) vpgs.length)) ∧
    queryVPGs
      (fun _ => .ok ⟨200, [],
        .ok (some (.arr [.obj [("ActualRPO", .num 5)], .obj [("ActualRPO", .num 10)]]))⟩)
      serverIP sessionToken = .ok (.average 7) ∧
    (7 : ℚ) ≠ ((5 : ℚ) + 10) / 2 := by
  refine ⟨?_, rfl, by norm_num⟩
  exact queryVPGs_decode_pos client serverIP sessionToken resp mj vpgs hresp hbody hdec
    (List.length_pos.mpr hne)

/-- Claim C8, witness: records 5 and 10 print 7, not the exact mean
7.5. -/
theorem average_is_truncated_quotient_witness :
    queryVPGs
      (fun _ => .ok ⟨200, [],
        .ok (some (.arr [.obj [("ActualRPO", .num 5)], .obj [("ActualRPO", .num 10)]]))⟩)
      "zvm" "tok" = .ok (.average 7) ∧
    (7 : ℚ) ≠ ((5 : ℚ) + 10) / 2 := by
  have h := average_is_truncated_quotient
    (fun _ => .ok ⟨200, [],
      .ok (some (.arr [.obj [("ActualRPO", .num 5)], .obj [("ActualRPO", .num 10)]]))⟩)
    "zvm" "tok"
    ⟨200, [], .ok (some (.arr [.obj [("ActualRPO", .num 5)], .obj [("ActualRPO", .num 10)]]))⟩
    (some (.arr [.obj [("ActualRPO", .num 5)], .obj [("ActualRPO", .num 10)]]))
    [⟨5⟩, ⟨10⟩] rfl rfl rfl (by decide)
  exact ⟨h.2.1, h.2.2⟩

/-- Claim C9, counterexample: a body that is JSON `null` does not
decode as a JSON array, yet `queryVPGs` succeeds on it (even with
status 500) instead of returning an error as the claim states. -/
theorem null_body_succeeds_without_array :
    isJsonArray (some .null) = false ∧
    queryVPGs (fun _ => .ok ⟨500, [], .ok (some .null)⟩) "zvm" "tok" = .ok .noVPGs :=
  ⟨rfl, rfl⟩

/-- Claim C9, amended: `queryVPGs` never inspects the HTTP status code
of the GET response — its result is the same for any two responses
sharing a body; for every body that unmarshals into the record list
(any decodable JSON array, and also JSON `null`, which decodes to the
empty list) the call succeeds regardless of status, and for every body
that fails to unmarshal it returns an error regardless of status. -/
theorem queryVPGs_ignores_status
    (serverIP sessionToken : String) (status status2 : Nat)
    (hdrs hdrs2 : List (String × String)) (mbody : Except String (Option Json)) :
    queryVPGs (fun _ => .ok ⟨status, hdrs, mbody⟩) serverIP sessionToken =
      queryVPGs (fun _ => .ok ⟨status2, hdrs2, mbody⟩) serverIP sessionToken ∧
    (∀ mj vpgs, mbody = .ok mj → unmarshalVPGList mj = .ok vpgs →
      ∃ out, queryVPGs (fun _ => .ok ⟨status, hdrs, mbody⟩) serverIP sessionToken =
        .ok out) ∧
    (∀ mj e, mbody = .ok mj → unmarshalVPGList mj = .error e →
      queryVPGs (fun _ => .ok ⟨status, hdrs, mbody⟩) serverIP sessionToken =
        .error ("error unmarshalling JSON: " ++ e)) := by
  refine ⟨rfl, ?_, ?_⟩
  · intro mj vpgs hmj hdec
    rcases Nat.eq_zero_or_pos vpgs.length with h | h
    · exact ⟨.noVPGs, by simp [queryVPGs, hmj, hdec, h]⟩
    · exact ⟨.average (Int.tdiv (totalRPO vpgs) vpgs.length),
        by simp [queryVPGs, hmj, hdec, h]⟩
  · intro mj e hmj hdec
    simp [queryVPGs, hmj, hdec]

/-- Claim C9, witness: a decodable body gives the same successful
result under status 500 as under status 200. -/
theorem queryVPGs_ignores_status_witness :
    queryVPGs (fun _ => .ok ⟨500, [], .ok (some (.arr [.obj [("ActualRPO", .num 4)]]))⟩)
      "zvm" "tok" =
      queryVPGs (fun _ => .ok ⟨200, [("k", "v")],
        .ok (some (.arr [.obj [("ActualRPO", .num 4)]]))⟩) "zvm" "tok" ∧
    (∃ out, queryVPGs
      (fun _ => .ok ⟨500, [], .ok (some (.arr [.obj [("ActualRPO", .num 4)]]))⟩)
      "zvm" "tok" = .ok out) := by
  have h := queryVPGs_ignores_status "zvm" "tok" 500 200 [] [("k", "v")]
    (.ok (some (.arr [.obj [("ActualRPO", .num 4)]])))
  exact ⟨h.1, h.2.1 (some (.arr [.obj [("ActualRPO", .num 4)]])) [⟨4⟩] rfl rfl⟩

/-- Claim C10: on every body decoding to a non-empty record list the
two source variants produce the same average value, while on the empty
list the `src/main.go` variant prints the placeholder line and the
`src/unnamed/part_000` variant returns 0, so their printed outputs
differ there. -/
theorem variants_agree
    (client : Client) (serverIP sessionToken : String)
    (resp : HttpResponse) (mj : Option Json) (vpgs : List VPG)
    (hresp : client (vpgsRequest serverIP sessionToken) = .ok resp)
    (hbody : resp.body = .ok mj)
    (hdec : unmarshalVPGList mj = .ok vpgs) :
    (vpgs ≠ [] → ∃ v, queryVPGs client serverIP sessionToken = .ok (.average v) ∧
      queryVPGs2 client serverIP sessionToken = (v, none)) ∧
    (vpgs = [] → queryVPGs client serverIP sessionToken = .ok .noVPGs ∧
      queryVPGs2 client serverIP sessionToken = (0, none) ∧
      renderOutput .noVPGs ≠ renderAverageLine 0) := by
  constructor
  · intro hne
    have hpos : 0 < vpgs.length := List.length_pos.mpr hne
    exact ⟨Int.tdiv (wrap64 ((vpgs.map (fun v => v.ActualRPO)).sum)) vpgs.length,
      queryVPGs_decode_pos client serverIP sessionToken resp mj vpgs hresp hbody hdec hpos,
      queryVPGs2_decode_pos client serverIP sessionToken resp mj vpgs hresp hbody hdec hpos⟩
  · intro hnil
    subst hnil
    exact ⟨by simp [queryVPGs, hresp, hbody, hdec],
      by simp [queryVPGs2, hresp, hbody, hdec], by decide⟩

/-- Claim C10, witness: on records 5 and 15 both variants yield the
same average. -/
theorem variants_agree_witness :
    ∃ v, queryVPGs
      (fun _ => .ok ⟨200, [],
        .ok (some (.arr [.obj [("ActualRPO", .num 5)], .obj [("ActualRPO", .num 15)]]))⟩)
      "zvm" "tok" = .ok (.average v) ∧
    queryVPGs2
      (fun _ => .ok ⟨200, [],
        .ok (some (.arr [.obj [("ActualRPO", .num 5)], .obj [("ActualRPO", .num 15)]]))⟩)
      "zvm" "tok" = (v, none) := by
  have h := variants_agree
    (fun _ => .ok ⟨200, [],
      .ok (some (.arr [.obj [("ActualRPO", .num 5)], .obj [("ActualRPO", .num 15)]]))⟩)
    "zvm" "tok"
    ⟨200, [], .ok (some (.arr [.obj [("ActualRPO", .num 5)], .obj [("ActualRPO", .num 15)]]))⟩
    (some (.arr [.obj [("ActualRPO", .num 5)], .obj [("ActualRPO", .num 15)]]))
    [⟨5⟩, ⟨15⟩] rfl rfl rfl
  exact h.1 (by decide)

end ZertoRPO
